import Mathlib

/-!
Shallow embedding of the s390-tools uvdevice command layer:
  - src/rust/pv/src/uvdevice/ffi.rs        (ioctl number encoding, wire constants)
  - src/rust/pv_core/src/uvdevice.rs       (control block construction, send_cmd,
                                            return-code interpretation)

Machine integers are modelled as `Nat` with an explicit `% 2 ^ 64` where the
source computes in `u64` and overflow is possible.  Fallible code returns
`Except`; the `unreachable!` branches of `rc_fmt` are modelled as `none` of an
`Option` layer (a `none` result of `rc_fmt` / `send_cmd` corresponds to a Rust
panic, which we prove is never reached on the paths the code exercises).
The single ioctl system call is modelled as an oracle
`dev : Nat → IoctlCb → Int × Int × IoctlCb` giving the ioctl return value, the
OS errno that `last_os_error` would observe, and the firmware-mutated control
block; `send_cmd` additionally returns the list of ioctl invocations it issued
(operation identifier and control block handed to the device), so that
"the control operation is never issued" and "exactly one call, no retry" are
expressible.
-/

/-- Constant `UVIO_TYPE_UVC` from ffi.rs: the ASCII value of the letter u. -/
def UVIO_TYPE_UVC : Nat := 117

/-- Constant `UVIO_IOCTL_UVDEV_INFO_NR` from ffi.rs. -/
def UVIO_IOCTL_UVDEV_INFO_NR : Nat := 0

/-- Constant `UVIO_IOCTL_ATT_NR` from ffi.rs. -/
def UVIO_IOCTL_ATT_NR : Nat := 1

/-- Constant `UVIO_IOCTL_ADD_SECRET_NR` from ffi.rs. -/
def UVIO_IOCTL_ADD_SECRET_NR : Nat := 2

/-- Constant `UVIO_IOCTL_LIST_SECRETS_NR` from ffi.rs. -/
def UVIO_IOCTL_LIST_SECRETS_NR : Nat := 3

/-- Constant `UVIO_IOCTL_LOCK_SECRETS_NR` from ffi.rs. -/
def UVIO_IOCTL_LOCK_SECRETS_NR : Nat := 4

/-- Byte size of `struct uvio_ioctl_cb` (ffi.rs), computed from its `repr(C)`
field widths: `flags: u32` (4) + `uv_rc: u16` (2) + `uv_rrc: u16` (2) +
`argument_addr: u64` (8) + `argument_len: u32` (4) + `reserved14: [u8; 44]`
(44); the source asserts this equals 0x40 via `assert_size!`. -/
def uvio_ioctl_cb_size : Nat := 4 + 2 + 2 + 8 + 4 + 44

/-- Constant `_IOC_WRITE` from asm-generic/ioctl.h as copied into ffi.rs. -/
def _IOC_WRITE : Nat := 1

/-- Constant `_IOC_READ` from asm-generic/ioctl.h as copied into ffi.rs. -/
def _IOC_READ : Nat := 2

/-- Constant `_IOC_NRSHIFT` from ffi.rs. -/
def _IOC_NRSHIFT : Nat := 0

/-- Constant `_IOC_TYPESHIFT` from ffi.rs. -/
def _IOC_TYPESHIFT : Nat := 8

/-- Constant `_IOC_SIZESHIFT` from ffi.rs. -/
def _IOC_SIZESHIFT : Nat := 16

/-- Constant `_IOC_DIRSHIFT` from ffi.rs. -/
def _IOC_DIRSHIFT : Nat := 30

/-- Embedding of `const fn iowr(ty: u8, nr: u8, size: usize) -> u64` from
ffi.rs (the `__IOWR` macro).  All arithmetic happens in `u64`, hence the
explicit reduction modulo `2 ^ 64`. -/
def iowr (ty nr size : Nat) : Nat :=
  (((_IOC_READ ||| _IOC_WRITE) <<< _IOC_DIRSHIFT
      ||| (ty <<< _IOC_TYPESHIFT)
      ||| (nr <<< _IOC_NRSHIFT)
      ||| (size <<< _IOC_SIZESHIFT)) % 2 ^ 64)

/-- Embedding of `const fn uv_ioctl(nr: u8) -> u64` from ffi.rs: the operation
identifier for sub-number `nr`, using the byte size of `uvio_ioctl_cb`. -/
def uv_ioctl (nr : Nat) : Nat :=
  iowr UVIO_TYPE_UVC nr uvio_ioctl_cb_size

/-- Constant `UvDevice::RC_SUCCESS` from uvdevice.rs. -/
def RC_SUCCESS : Nat := 0x0001

/-- Constant `UvDevice::RC_MORE_DATA` from uvdevice.rs. -/
def RC_MORE_DATA : Nat := 0x0100

/-- Embedding of the error enum of pv_core as far as uvdevice.rs constructs
it: `Error::Specification`, the io-error conversion used by `ioctl_raw`
(carrying the OS errno), and `Error::Uv` with the raw codes and message. -/
inductive Error where
  | Specification (msg : String)
  | Os (errno : Int)
  | Uv (rc : Nat) (rrc : Nat) (msg : String)
deriving DecidableEq, Repr

/-- Embedding of `struct uvio_ioctl_cb` from ffi.rs (wrapped as `IoctlCb` in
uvdevice.rs).  Field values are the numeric contents of the C struct fields;
`reserved14` keeps the 44 reserved bytes. -/
structure IoctlCb where
  flags : Nat
  uv_rc : Nat
  uv_rrc : Nat
  argument_addr : Nat
  argument_len : Nat
  reserved14 : List Nat
deriving DecidableEq, Repr

/-- Embedding of `IoctlCb::new(data: Option<&mut [u8]>)` from uvdevice.rs.
A payload buffer is modelled by its address and byte length; `data.len()`
`try_into` a `u32` fails exactly when the length exceeds `u32::MAX`, producing
`Error::Specification("passed data too large")`.  With no payload the null
pointer (address 0) and length 0 are stored. -/
def IoctlCb.new (data : Option (Nat × Nat)) : Except Error IoctlCb :=
  match data with
  | some (addr, len) =>
      if len ≤ 0xFFFFFFFF then
        Except.ok { flags := 0, uv_rc := 0, uv_rrc := 0, argument_addr := addr,
                    argument_len := len, reserved14 := List.replicate 44 0 }
      else
        Except.error (Error.Specification "passed data too large")
  | none =>
      Except.ok { flags := 0, uv_rc := 0, uv_rrc := 0, argument_addr := 0,
                  argument_len := 0, reserved14 := List.replicate 44 0 }

/-- Embedding of the `UvCmd` trait from uvdevice.rs: the ioctl command number,
the optional payload buffer (address, byte length), and the command-specific
return-code formatter. -/
structure UvCmd where
  cmd : Nat
  data : Option (Nat × Nat)
  rc_fmt : Nat → Nat → Option String

/-- Behaviour of the operating system and device for one ioctl invocation:
given the operation identifier and the control block, it yields the ioctl
return value, the errno `last_os_error` would observe, and the
firmware-mutated control block. -/
def Dev : Type := Nat → IoctlCb → Int × Int × IoctlCb

/-- Embedding of `fn ioctl_raw(raw_fd, cmd, cb)` from uvdevice.rs: issue the
ioctl, return `Ok` with the mutated control block when the ioctl returned 0,
otherwise the OS error built from `last_os_error`. -/
def ioctl_raw (dev : Dev) (cmd : Nat) (cb : IoctlCb) : Except Error IoctlCb :=
  let r := dev cmd cb
  if r.1 = 0 then Except.ok r.2.2 else Except.error (Error.Os r.2.1)

/-- Embedding of `fn rc_fmt(rc, rrc, cmd)` from uvdevice.rs.  The outer
`Option` layer models the `unreachable!` panics for `RC_SUCCESS` and
`RC_MORE_DATA` (`none` is a panic); otherwise the match over the documented
generic codes falls through to the command-specific formatter, and a missing
text is replaced by the string unexpected error-code via `unwrap_or`. -/
def rc_fmt (cmd_rc_fmt : Nat → Nat → Option String) (rc rrc : Nat) :
    Option String :=
  let s : Option (Option String) :=
    if rc = 0x0000 then some (some "invalid rc")
    else if rc = 0x0002 then some (some "invalid UV command")
    else if rc = 0x0005 then some (some "request has an invalid size")
    else if rc = 0x0030 then
      some (some "home address space control bit has R-bit set to one")
    else if rc = 0x0031 then some (some "access exception")
    else if rc = 0x0032 then
      some (some "request contains virtual address translating to an invalid address")
    else if rc = RC_MORE_DATA then none
    else if rc = RC_SUCCESS then none
    else some (cmd_rc_fmt rc rrc)
  s.map (fun o => o.getD "unexpected error-code")

/-- Embedding of `enum UvcSuccess` from uvdevice.rs. -/
inductive UvcSuccess where
  | RC_SUCCESS
  | RC_MORE_DATA
deriving DecidableEq, Repr

/-- Embedding of `UvDevice::send_cmd` from uvdevice.rs.  The first component
is the call result (`none` models a Rust panic, never actually reached); the
second component is the list of ioctl invocations issued, each recorded as the
operation identifier and the control block handed to the device. -/
def send_cmd (dev : Dev) (c : UvCmd) :
    Option (Except Error UvcSuccess) × List (Nat × IoctlCb) :=
  match IoctlCb.new c.data with
  | Except.error e => (some (Except.error e), [])
  | Except.ok cb =>
    match ioctl_raw dev c.cmd cb with
    | Except.error e => (some (Except.error e), [(c.cmd, cb)])
    | Except.ok cb2 =>
      if cb2.uv_rc = RC_SUCCESS then
        (some (Except.ok UvcSuccess.RC_SUCCESS), [(c.cmd, cb)])
      else if cb2.uv_rc = RC_MORE_DATA then
        (some (Except.ok UvcSuccess.RC_MORE_DATA), [(c.cmd, cb)])
      else
        ((rc_fmt c.rc_fmt cb2.uv_rc cb2.uv_rrc).map
          (fun msg => Except.error (Error.Uv cb2.uv_rc cb2.uv_rrc msg)),
         [(c.cmd, cb)])

/-! ### Helper lemmas shared by claim proofs -/

/-- A control block built with no payload has every field zeroed. -/
lemma ioctl_cb_new_none_eq :
    IoctlCb.new none = Except.ok ⟨0, 0, 0, 0, 0, List.replicate 44 0⟩ := rfl

/-- A control block built from a payload whose length fits in 32 bits stores
exactly that address and length, everything else zeroed. -/
lemma ioctl_cb_new_some_eq (addr len : Nat) (h : len ≤ 0xFFFFFFFF) :
    IoctlCb.new (some (addr, len)) =
      Except.ok ⟨0, 0, 0, addr, len, List.replicate 44 0⟩ := by
  simp [IoctlCb.new, h]

/-- Whenever building the control block succeeds, `send_cmd` issues exactly
one ioctl, with that control block and the command's operation identifier. -/
lemma send_cmd_trace_eq (dev : Dev) (c : UvCmd) (cb : IoctlCb)
    (hcb : IoctlCb.new c.data = Except.ok cb) :
    (send_cmd dev c).2 = [(c.cmd, cb)] := by
  simp only [send_cmd, hcb]
  split
  · rfl
  · split
    · rfl
    · split <;> rfl

/-- Every successfully built control block has flags, both response codes and
the reserved bytes zeroed. -/
lemma ioctl_cb_new_ok_zeroed (d : Option (Nat × Nat)) (cb : IoctlCb)
    (h : IoctlCb.new d = Except.ok cb) :
    cb.flags = 0 ∧ cb.uv_rc = 0 ∧ cb.uv_rrc = 0 ∧
      cb.reserved14 = List.replicate 44 0 := by
  rcases d with _ | ⟨addr, len⟩
  · cases h
    exact ⟨rfl, rfl, rfl, rfl⟩
  · by_cases hlen : len ≤ 0xFFFFFFFF
    · rw [ioctl_cb_new_some_eq addr len hlen] at h
      cases h
      exact ⟨rfl, rfl, rfl, rfl⟩
    · simp [IoctlCb.new, hlen] at h

/-! ### Claim theorems -/

/-- C3: the operation identifier computed for the attestation sub-number 1
with control-block size 64 equals exactly 0xc0407501 (the `static_assert!`
canary of ffi.rs). -/
theorem uv_ioctl_attestation_canary : uv_ioctl UVIO_IOCTL_ATT_NR = 0xc0407501 := by
  decide

/-- C2 counterexample: the claimed encoding puts the value 2 in the direction
field, but already for the attestation sub-number the identifier the code
computes differs from `(2) <<< 30 ||| (1) <<< 0 ||| (64) <<< 16 ||| (117) <<< 8`
(the code ORs READ = 2 with WRITE = 1, so the direction field holds 3). -/
theorem uv_ioctl_direction_counterexample :
    uv_ioctl 1 ≠ ((2 <<< 30) ||| (1 <<< 0) ||| (64 <<< 16) ||| (117 <<< 8)) := by
  decide

/-- C2 amended: for every sub-number of the five defined commands, the 64-bit
control-operation identifier equals
`(3) <<< 30 ||| (n) <<< 0 ||| (64) <<< 16 ||| (117) <<< 8`: the direction
field holds READ ||| WRITE = 2 ||| 1 = 3, the control-block size 64 sits in
the size field, and the type tag 117 in the type field. -/
theorem uv_ioctl_encoding (n : Nat) (h : n < 5) :
    uv_ioctl n = ((3 <<< 30) ||| (n <<< 0) ||| (64 <<< 16) ||| (117 <<< 8)) := by
  interval_cases n <;> decide

/-- Witness for `uv_ioctl_encoding` at the attestation sub-number. -/
theorem uv_ioctl_encoding_witness :
    uv_ioctl 1 = ((3 <<< 30) ||| (1 <<< 0) ||| (64 <<< 16) ||| (117 <<< 8)) :=
  uv_ioctl_encoding 1 (by decide)

/-- C9: for each of the five defined sub-numbers, the operation-identifier
function is deterministic and side-effect free: evaluating it twice yields
bit-identical results, and the value is the fixed 64-bit constant
`0xc0407500 + n`. -/
theorem uv_ioctl_deterministic (n : Nat) (h : n < 5) :
    uv_ioctl n = uv_ioctl n ∧ uv_ioctl n = 0xc0407500 + n := by
  refine ⟨rfl, ?_⟩
  interval_cases n <;> decide

/-- Witness for `uv_ioctl_deterministic` at the list-secrets sub-number. -/
theorem uv_ioctl_deterministic_witness :
    uv_ioctl 3 = uv_ioctl 3 ∧ uv_ioctl 3 = 0xc0407500 + 3 :=
  uv_ioctl_deterministic 3 (by decide)

set_option maxRecDepth 100000 in
/-- C10: for every 8-bit sub-number, the operation identifier equals
`0xc0407500 ||| n`: all identifiers share the fixed prefix 0xc04075 and
differ only in the low 8 bits, which hold the sub-number. -/
theorem uv_ioctl_low_byte : ∀ n : Nat, n < 256 → uv_ioctl n = 0xc0407500 ||| n := by
  decide

/-- Witness for `uv_ioctl_low_byte` at sub-number 42. -/
theorem uv_ioctl_low_byte_witness : uv_ioctl 42 = 0xc0407500 ||| 42 :=
  uv_ioctl_low_byte 42 (by decide)

/-! ### Concrete device oracles and commands used by the witnesses -/

/-- A zeroed control block, exactly what is built for a command without
payload. -/
def cb0 : IoctlCb := ⟨0, 0, 0, 0, 0, List.replicate 44 0⟩

/-- Device oracle whose ioctl succeeds and leaves the control block
unchanged. -/
def devEcho : Dev := fun _ cb => (0, 0, cb)

/-- Device oracle whose ioctl succeeds and sets the two response codes. -/
def devRc (rc rrc : Nat) : Dev :=
  fun _ cb => (0, 0, { cb with uv_rc := rc, uv_rrc := rrc })

/-- Device oracle whose ioctl fails at OS level with return value -1 and
errno 13. -/
def devFail : Dev := fun _ cb => (-1, 13, cb)

/-- Command with no payload (info query). -/
def cmdInfo : UvCmd :=
  { cmd := uv_ioctl 0, data := none, rc_fmt := fun _ _ => none }

/-- Command whose payload length does not fit in 32 bits. -/
def cmdHuge : UvCmd :=
  { cmd := uv_ioctl 2, data := some (4096, 0x100000000), rc_fmt := fun _ _ => none }

/-- Command with a small payload at address 4096, length 0x1000. -/
def cmdSmall : UvCmd :=
  { cmd := uv_ioctl 3, data := some (4096, 0x1000), rc_fmt := fun _ _ => none }

/-- Command-specific formatter always yielding text. -/
def explainCustom : Nat → Nat → Option String := fun _ _ => some "custom text"

/-- Command-specific formatter never yielding text. -/
def explainNone : Nat → Nat → Option String := fun _ _ => none

/-- When building the control block fails, no ioctl is issued. -/
lemma send_cmd_trace_nil (dev : Dev) (c : UvCmd) (e : Error)
    (h : IoctlCb.new c.data = Except.error e) : (send_cmd dev c).2 = [] := by
  simp [send_cmd, h]

/-- C4: for every command whose payload length exceeds 0xFFFFFFFF, `send_cmd`
fails with the SpecificationError of `IoctlCb::new` and no control operation
is ever issued (the trace is empty and the result is the same for every
device behaviour). -/
theorem send_cmd_too_large (dev : Dev) (c : UvCmd) (addr len : Nat)
    (hdata : c.data = some (addr, len)) (hlen : 0xFFFFFFFF < len) :
    send_cmd dev c =
      (some (Except.error (Error.Specification "passed data too large")), []) := by
  have hnew : IoctlCb.new c.data =
      Except.error (Error.Specification "passed data too large") := by
    rw [hdata]
    simp [IoctlCb.new, Nat.not_le.mpr hlen]
  simp [send_cmd, hnew]

/-- Witness for `send_cmd_too_large` on a 2^32-byte payload. -/
theorem send_cmd_too_large_witness :
    send_cmd devEcho cmdHuge =
      (some (Except.error (Error.Specification "passed data too large")), []) :=
  send_cmd_too_large devEcho cmdHuge 4096 0x100000000 rfl (by decide)

/-- C5: for every command whose payload length fits in 32 bits, every control
block handed to the device carries exactly the payload's address in
`argument_addr` and its exact byte length in `argument_len`. -/
theorem send_cmd_arg_invariant (dev : Dev) (c : UvCmd) (addr len : Nat)
    (p : Nat × IoctlCb)
    (hdata : c.data = some (addr, len)) (hlen : len ≤ 0xFFFFFFFF)
    (hp : p ∈ (send_cmd dev c).2) :
    p.2.argument_addr = addr ∧ p.2.argument_len = len := by
  have hnew := ioctl_cb_new_some_eq addr len hlen
  rw [← hdata] at hnew
  rw [send_cmd_trace_eq dev c _ hnew] at hp
  simp only [List.mem_singleton] at hp
  rcases hp with rfl
  exact ⟨rfl, rfl⟩

/-- Witness for `send_cmd_arg_invariant` on a 4 KiB payload at address
4096. -/
theorem send_cmd_arg_invariant_witness :
    ((uv_ioctl 3, (⟨0, 0, 0, 4096, 0x1000, List.replicate 44 0⟩ : IoctlCb)) :
        Nat × IoctlCb).2.argument_addr = 4096 ∧
    ((uv_ioctl 3, (⟨0, 0, 0, 4096, 0x1000, List.replicate 44 0⟩ : IoctlCb)) :
        Nat × IoctlCb).2.argument_len = 0x1000 :=
  send_cmd_arg_invariant devEcho cmdSmall 4096 0x1000 _ rfl (by decide) (by decide)

/-- C6: for every command, every control block handed to the device has
flags, both response-code fields and the reserved padding zeroed, and when
the command has no payload the argument address and length are zero as
well. -/
theorem send_cmd_cb_zeroed (dev : Dev) (c : UvCmd) (p : Nat × IoctlCb)
    (hp : p ∈ (send_cmd dev c).2) :
    p.2.flags = 0 ∧ p.2.uv_rc = 0 ∧ p.2.uv_rrc = 0 ∧
      p.2.reserved14 = List.replicate 44 0 ∧
      (c.data = none → p.2.argument_addr = 0 ∧ p.2.argument_len = 0) := by
  cases hnew : IoctlCb.new c.data with
  | error e =>
      rw [send_cmd_trace_nil dev c e hnew] at hp
      simp at hp
  | ok cb =>
      rw [send_cmd_trace_eq dev c cb hnew] at hp
      simp only [List.mem_singleton] at hp
      rcases hp with rfl
      obtain ⟨h1, h2, h3, h4⟩ := ioctl_cb_new_ok_zeroed c.data cb hnew
      refine ⟨h1, h2, h3, h4, fun hnone => ?_⟩
      rw [hnone, ioctl_cb_new_none_eq] at hnew
      cases hnew
      exact ⟨rfl, rfl⟩

/-- Witness for `send_cmd_cb_zeroed` on the no-payload info command. -/
theorem send_cmd_cb_zeroed_witness :
    ((uv_ioctl 0, cb0) : Nat × IoctlCb).2.flags = 0 ∧
    ((uv_ioctl 0, cb0) : Nat × IoctlCb).2.uv_rc = 0 ∧
    ((uv_ioctl 0, cb0) : Nat × IoctlCb).2.uv_rrc = 0 ∧
    ((uv_ioctl 0, cb0) : Nat × IoctlCb).2.reserved14 = List.replicate 44 0 ∧
    (cmdInfo.data = none →
      ((uv_ioctl 0, cb0) : Nat × IoctlCb).2.argument_addr = 0 ∧
      ((uv_ioctl 0, cb0) : Nat × IoctlCb).2.argument_len = 0) :=
  send_cmd_cb_zeroed devEcho cmdInfo (uv_ioctl 0, cb0) (by decide)

/-- When the control block builds and the ioctl succeeds delivering `cbr`,
the result of `send_cmd` is determined by the response codes of `cbr`. -/
lemma send_cmd_fst_ok (dev : Dev) (c : UvCmd) (cb cbr : IoctlCb)
    (hcb : IoctlCb.new c.data = Except.ok cb)
    (hio : ioctl_raw dev c.cmd cb = Except.ok cbr) :
    (send_cmd dev c).1 =
      (if cbr.uv_rc = RC_SUCCESS then some (Except.ok UvcSuccess.RC_SUCCESS)
       else if cbr.uv_rc = RC_MORE_DATA then
         some (Except.ok UvcSuccess.RC_MORE_DATA)
       else (rc_fmt c.rc_fmt cbr.uv_rc cbr.uv_rrc).map
              (fun msg => Except.error (Error.Uv cbr.uv_rc cbr.uv_rrc msg))) := by
  simp only [send_cmd, hcb, hio]
  split
  · rfl
  · split <;> rfl

/-- C1: response-code interpretation of `send_cmd`: rc 0x0001 yields the
Success result and rc 0x0100 the MoreData result, for any reason code; each
of the six generic codes yields `Error.Uv` with both raw codes and its
documented fixed text; any other rc for which the command's own formatter
yields no text produces `Error.Uv` with the text unexpected error-code. -/
theorem send_cmd_rc_interpretation (dev : Dev) (c : UvCmd) (cb cbr : IoctlCb)
    (errno : Int)
    (hcb : IoctlCb.new c.data = Except.ok cb)
    (hdev : dev c.cmd cb = (0, errno, cbr)) :
    (cbr.uv_rc = 0x0001 →
      (send_cmd dev c).1 = some (Except.ok UvcSuccess.RC_SUCCESS)) ∧
    (cbr.uv_rc = 0x0100 →
      (send_cmd dev c).1 = some (Except.ok UvcSuccess.RC_MORE_DATA)) ∧
    (cbr.uv_rc = 0x0000 →
      (send_cmd dev c).1 =
        some (Except.error (Error.Uv 0x0000 cbr.uv_rrc "invalid rc"))) ∧
    (cbr.uv_rc = 0x0002 →
      (send_cmd dev c).1 =
        some (Except.error (Error.Uv 0x0002 cbr.uv_rrc "invalid UV command"))) ∧
    (cbr.uv_rc = 0x0005 →
      (send_cmd dev c).1 =
        some (Except.error
          (Error.Uv 0x0005 cbr.uv_rrc "request has an invalid size"))) ∧
    (cbr.uv_rc = 0x0030 →
      (send_cmd dev c).1 =
        some (Except.error (Error.Uv 0x0030 cbr.uv_rrc
          "home address space control bit has R-bit set to one"))) ∧
    (cbr.uv_rc = 0x0031 →
      (send_cmd dev c).1 =
        some (Except.error (Error.Uv 0x0031 cbr.uv_rrc "access exception"))) ∧
    (cbr.uv_rc = 0x0032 →
      (send_cmd dev c).1 =
        some (Except.error (Error.Uv 0x0032 cbr.uv_rrc
          "request contains virtual address translating to an invalid address"))) ∧
    (cbr.uv_rc ∉
        ([0x0000, 0x0001, 0x0002, 0x0005, 0x0030, 0x0031, 0x0032, 0x0100] :
          List Nat) →
      c.rc_fmt cbr.uv_rc cbr.uv_rrc = none →
      (send_cmd dev c).1 =
        some (Except.error
          (Error.Uv cbr.uv_rc cbr.uv_rrc "unexpected error-code"))) := by
  have hio : ioctl_raw dev c.cmd cb = Except.ok cbr := by
    simp [ioctl_raw, hdev]
  rw [send_cmd_fst_ok dev c cb cbr hcb hio]
  refine ⟨fun h => ?_, fun h => ?_, fun h => ?_, fun h => ?_, fun h => ?_,
    fun h => ?_, fun h => ?_, fun h => ?_, fun h hn => ?_⟩ <;>
    [skip; skip; skip; skip; skip; skip; skip; skip; skip] <;>
    first
    | (rw [h]; norm_num [rc_fmt, RC_SUCCESS, RC_MORE_DATA])
    | (simp only [List.mem_cons, List.not_mem_nil, or_false] at h
       push_neg at h
       obtain ⟨n0, n1, n2, n5, n30, n31, n32, n100⟩ := h
       simp [rc_fmt, RC_SUCCESS, RC_MORE_DATA, n0, n1, n2, n5, n30, n31, n32,
         n100, hn])

/-- Witness for `send_cmd_rc_interpretation`: a device answering with the
generic code 0x0005 produces the fixed invalid-size error text. -/
theorem send_cmd_rc_interpretation_witness :
    (send_cmd (devRc 5 9) cmdInfo).1 =
      some (Except.error (Error.Uv 0x0005 9 "request has an invalid size")) :=
  (send_cmd_rc_interpretation (devRc 5 9) cmdInfo cb0
      { cb0 with uv_rc := 5, uv_rrc := 9 } 0 rfl rfl).2.2.2.2.1 rfl

/-- C7: the command's own formatter is consulted only outside the six
reserved generic codes: on those six the result of `rc_fmt` does not depend
on the command's formatter at all, and outside them (and outside the two
success codes, which never reach the formatter as errors) a text supplied by
the command takes precedence over the generic fallback. -/
theorem rc_fmt_precedence (e1 e2 : Nat → Nat → Option String) (rc rrc : Nat)
    (s : String) (h1 : rc ≠ RC_SUCCESS) (h2 : rc ≠ RC_MORE_DATA) :
    (rc ∈ ([0x0000, 0x0002, 0x0005, 0x0030, 0x0031, 0x0032] : List Nat) →
      rc_fmt e1 rc rrc = rc_fmt e2 rc rrc) ∧
    (rc ∉ ([0x0000, 0x0002, 0x0005, 0x0030, 0x0031, 0x0032] : List Nat) →
      e1 rc rrc = some s → rc_fmt e1 rc rrc = some s) := by
  have h1n : rc ≠ 0x0001 := h1
  have h2n : rc ≠ 0x0100 := h2
  constructor
  · intro hmem
    fin_cases hmem <;> rfl
  · intro hmem hs
    simp only [List.mem_cons, List.not_mem_nil, or_false] at hmem
    push_neg at hmem
    obtain ⟨n0, n2, n5, n30, n31, n32⟩ := hmem
    simp [rc_fmt, RC_SUCCESS, RC_MORE_DATA, n0, n2, n5, n30, n31, n32, h1n,
      h2n, hs]

/-- Witness for `rc_fmt_precedence`: on the generic code 0x0002 a command
formatter with text changes nothing, and on the unreserved code 0x0042 its
text wins. -/
theorem rc_fmt_precedence_witness :
    rc_fmt explainCustom 0x0002 7 = rc_fmt explainNone 0x0002 7 ∧
    rc_fmt explainCustom 0x0042 7 = some "custom text" :=
  ⟨(rc_fmt_precedence explainCustom explainNone 0x0002 7 "custom text"
      (by decide) (by decide)).1 (by decide),
   (rc_fmt_precedence explainCustom explainNone 0x0042 7 "custom text"
      (by decide) (by decide)).2 (by decide) rfl⟩

/-- C8: when the ioctl fails at the operating-system level with a negative
return value, `send_cmd` returns the structured OS error carrying the errno,
after exactly one ioctl invocation (no retry), and without inspecting the
response codes of the control block the device returned. -/
theorem send_cmd_os_error (dev : Dev) (c : UvCmd) (cb cbr : IoctlCb)
    (r errno : Int)
    (hcb : IoctlCb.new c.data = Except.ok cb)
    (hdev : dev c.cmd cb = (r, errno, cbr))
    (hr : r < 0) :
    send_cmd dev c = (some (Except.error (Error.Os errno)), [(c.cmd, cb)]) := by
  have hio : ioctl_raw dev c.cmd cb = Except.error (Error.Os errno) := by
    simp [ioctl_raw, hdev]
    omega
  simp [send_cmd, hcb, hio]

/-- Witness for `send_cmd_os_error`: a device failing with errno 13. -/
theorem send_cmd_os_error_witness :
    send_cmd devFail cmdInfo =
      (some (Except.error (Error.Os 13)), [(uv_ioctl 0, cb0)]) :=
  send_cmd_os_error devFail cmdInfo cb0 cb0 (-1) 13 rfl rfl (by decide)
